import Mathlib

/-!
Shallow embedding of the websockets Connect-Four relay server (src/app.py)
and of its board engine.  The engine module (imported as `connect4` in
src/app.py) is not part of the sources, so it is modelled from the spec
(sections 3 and 4.1).  Handlers are modelled as pure functions that thread an
explicit server state (the JOIN and WATCH token registries plus a session
store) and record every outgoing wire event.
-/

namespace WsApp

/-- The two fixed player identifiers (PLAYER1 and PLAYER2 in src/app.py). -/
inductive Player where
  | P1
  | P2
deriving DecidableEq, Repr

/-- One recorded move: (player, column, row), as appended to the engine's
move history. -/
structure Move where
  player : Player
  column : Nat
  row : Nat
deriving DecidableEq, Repr

/-- Modelled from the spec: the Board Engine error taxonomy (section 7).
`columnFull` is raised when the target column has no empty cell; the spec
also lists `IllegalMoveKind` but, per sections 4.1 and 9, turn order is not
enforced, so the modelled engine only ever raises `columnFull`. -/
inductive MoveError where
  | columnFull
  | illegalMove
deriving DecidableEq, Repr

/-- The failure message carried by the error event the relay sends for a
rejected move (src/app.py line 141 shows the wire form for a full column). -/
def MoveError.message : MoveError → String
  | .columnFull => "This slot is full."
  | .illegalMove => "It is an illegal move."

/-- Modelled from the spec: a Board Engine instance — an ordered move
history plus a write-once winner field (section 3).  The grid is determined
by the history (exactly one writer per cell). -/
structure Connect4 where
  moves : List Move
  winner : Option Player
deriving DecidableEq, Repr

/-- Board width (source uses 7). -/
def width : Nat := 7

/-- Board height (source uses 6). -/
def height : Nat := 6

/-- A fresh game: empty history, no winner. -/
def Connect4.new : Connect4 := ⟨[], none⟩

/-- The mark occupying cell (c, r), read off the move history. -/
def cellAt (ms : List Move) (c r : Int) : Option Player :=
  (ms.find? (fun m => (m.column : Int) == c && (m.row : Int) == r)).map (fun m => m.player)

/-- Number of consecutive cells holding player p, walking from (c, r) in
direction (dc, dr), with the given fuel (3 suffices for four-in-a-row). -/
def countDir (ms : List Move) (p : Player) : Int → Int → Int → Int → Nat → Nat
  | _, _, _, _, 0 => 0
  | c, r, dc, dr, n + 1 =>
    if cellAt ms (c + dc) (r + dr) = some p then
      1 + countDir ms p (c + dc) (r + dr) dc dr n
    else 0

/-- Length of the maximal run of player p's marks through (c, r) along the
axis (dc, dr). -/
def lineLen (ms : List Move) (p : Player) (c r dc dr : Int) : Nat :=
  countDir ms p c r dc dr 3 + countDir ms p c r (-dc) (-dr) 3 + 1

/-- Modelled from the spec: win test originating at the placed cell —
four-in-a-row along any of the four axes through it (section 4.1). -/
def winAt (ms : List Move) (p : Player) (c r : Int) : Bool :=
  decide (4 ≤ lineLen ms p c r 1 0) || decide (4 ≤ lineLen ms p c r 0 1) ||
    decide (4 ≤ lineLen ms p c r 1 1) || decide (4 ≤ lineLen ms p c r 1 (-1))

/-- Number of filled cells in a column; by the gravity invariant this is the
lowest empty row of that column. -/
def columnHeight (g : Connect4) (c : Nat) : Nat :=
  (g.moves.filter (fun m => m.column == c)).length

/-- The write-once winner update: a winner already set is never changed;
otherwise the winner becomes p exactly when the new move wins. -/
def updateWinner (cur : Option Player) (ms : List Move) (p : Player) (c r : Nat) : Option Player :=
  match cur with
  | some w => some w
  | none => if winAt ms p (c : Int) (r : Int) then some p else none

/-- The game after placing p's mark in the given column at the lowest empty
row, with the move appended to the history and the winner field updated. -/
def afterMove (g : Connect4) (p : Player) (column : Nat) : Connect4 :=
  ⟨g.moves ++ [⟨p, column, columnHeight g column⟩],
   updateWinner g.winner (g.moves ++ [⟨p, column, columnHeight g column⟩]) p column
     (columnHeight g column)⟩

/-- Modelled from the spec: `apply_move` (section 4.1).  Fails with
`ColumnFullKind` when the target column has no empty cell (a column off the
board has no cells, hence no empty cell); otherwise places the mark in the
lowest empty row, appends (player, column, row) to the history, and returns
the row.  Turn order is not enforced (section 9). -/
def Connect4.play (g : Connect4) (p : Player) (column : Nat) :
    Except MoveError (Nat × Connect4) :=
  if column < width ∧ columnHeight g column < height then
    Except.ok (columnHeight g column, afterMove g p column)
  else
    Except.error MoveError.columnFull

/-- The wire events the server emits (src/app.py). -/
inductive Event where
  | init (join watch : String)
  | play (player : Player) (column row : Nat)
  | win (player : Player)
  | error (message : String)
deriving DecidableEq, Repr

/-- One outgoing transmission: either a send to a single connection
(websocket.send) or a broadcast to every connection in a set at call time
(websockets.broadcast(connected, ...)).  Connections are abstract
identifiers. -/
inductive Output where
  | send (dest : Nat) (event : Event)
  | broadcast (dests : Finset Nat) (event : Event)
deriving DecidableEq

/-- A session: one game plus its fan-out connection set (the pair stored
under both tokens in src/app.py lines 83 and 85). -/
structure Session where
  game : Connect4
  connected : Finset Nat
deriving DecidableEq

/-- The process-wide server state: the JOIN and WATCH token registries
(token to session id) and the session store (id to session).  The id
indirection models the Python aliasing of the (game, connected) pair between
the registries and the handlers. -/
structure ServerState where
  joinMap : List (String × Nat)
  watchMap : List (String × Nat)
  sessions : List (Nat × Session)
deriving DecidableEq

/-- Registry lookup (dict indexing, first matching key). -/
def lookupTok (m : List (String × Nat)) (k : String) : Option Nat :=
  (m.find? (fun q => q.1 == k)).map (fun q => q.2)

/-- Registry deletion (del JOIN[key]): removes the entries keyed k. -/
def removeTok (m : List (String × Nat)) (k : String) : List (String × Nat) :=
  m.filter (fun q => q.1 != k)

/-- Session store lookup. -/
def lookupSession (s : ServerState) (sid : Nat) : Option Session :=
  (s.sessions.find? (fun q => q.1 == sid)).map (fun q => q.2)

/-- In-place mutation of the session stored under sid. -/
def modifySession (s : ServerState) (sid : Nat) (f : Session → Session) : ServerState :=
  { s with sessions := s.sessions.map (fun q => if q.1 = sid then (q.1, f q.2) else q) }

/-- JOIN[join_key] resolution: the (game, connected) pair for a join token,
or none (KeyError) when the token is not registered. -/
def resolveJoin (s : ServerState) (tok : String) : Option (Nat × Session) :=
  (lookupTok s.joinMap tok).bind
    (fun sid => (lookupSession s sid).map (fun sess => (sid, sess)))

/-- WATCH[watch_key] resolution. -/
def resolveWatch (s : ServerState) (tok : String) : Option (Nat × Session) :=
  (lookupTok s.watchMap tok).bind
    (fun sid => (lookupSession s sid).map (fun sess => (sid, sess)))

/-- connected.add(websocket). -/
def subscribe (s : ServerState) (sid ws : Nat) : ServerState :=
  modifySession s sid (fun sess => ⟨sess.game, insert ws sess.connected⟩)

/-- connected.remove(websocket). -/
def unsubscribe (s : ServerState) (sid ws : Nat) : ServerState :=
  modifySession s sid (fun sess => ⟨sess.game, sess.connected.erase ws⟩)

/-- Writing the mutated game back through the session alias. -/
def updateGame (s : ServerState) (sid : Nat) (g : Connect4) : ServerState :=
  modifySession s sid (fun sess => ⟨g, sess.connected⟩)

/-- How a handler terminates: normal completion or an uncaught protocol
violation (a failed assertion or malformed message). -/
inductive HExit where
  | clean
  | violation
deriving DecidableEq, Repr

/-- A message received inside the move loop: a well-formed move request
naming a target column, or anything else (malformed JSON, wrong type field,
missing column — all of which raise and end the loop). -/
inductive MoveMsg where
  | playReq (column : Nat)
  | malformed
deriving DecidableEq, Repr

/-- Result of running the move loop: the final game, server state, the
outputs emitted (in order) and how the loop ended. -/
structure LoopResult where
  game : Connect4
  state : ServerState
  outputs : List Output
  exit : HExit
deriving DecidableEq

/-- The move loop (src/app.py lines 41-73, `play`): for each incoming
message, a failed apply_move sends one error event to the requester and
continues; a successful one broadcasts a play event to the fan-out set and,
when the winner field is set, a win event right after it.  The list ending
models the connection closing; a malformed message ends the loop as a
protocol violation. -/
def play (ws sid : Nat) (p : Player) (conn : Finset Nat) :
    Connect4 → ServerState → List MoveMsg → LoopResult
  | g, s, [] => ⟨g, s, [], HExit.clean⟩
  | g, s, MoveMsg.malformed :: _ => ⟨g, s, [], HExit.violation⟩
  | g, s, MoveMsg.playReq col :: rest =>
    match Connect4.play g p col with
    | Except.error e =>
      let r := play ws sid p conn g s rest
      ⟨r.game, r.state, Output.send ws (Event.error e.message) :: r.outputs, r.exit⟩
    | Except.ok (row, g2) =>
      let r := play ws sid p conn g2 (updateGame s sid g2) rest
      ⟨r.game, r.state,
        Output.broadcast conn (Event.play p col row) ::
          ((match g2.winner with
            | some w => [Output.broadcast conn (Event.win w)]
            | none => []) ++ r.outputs),
        r.exit⟩

/-- Session registration (src/app.py lines 79-85): fresh game, fan-out set
holding only the creator, both token registry entries inserted. -/
def startRegister (s : ServerState) (ws sid : Nat) (joinKey watchKey : String) : ServerState :=
  { joinMap := (joinKey, sid) :: s.joinMap
    watchMap := (watchKey, sid) :: s.watchMap
    sessions := (sid, ⟨Connect4.new, {ws}⟩) :: s.sessions }

/-- The creator's finally block (src/app.py lines 98-100): deletes both
token registry entries, and nothing else. -/
def startCleanup (s : ServerState) (joinKey watchKey : String) : ServerState :=
  { s with
    joinMap := removeTok s.joinMap joinKey
    watchMap := removeTok s.watchMap watchKey }

/-- The creator handler (src/app.py lines 76-100, `start`): register the
session, send the init event carrying both tokens to the creator only, run
the move loop as PLAYER1, and on any exit delete both token entries. -/
def start (s : ServerState) (ws sid : Nat) (joinKey watchKey : String)
    (msgs : List MoveMsg) : ServerState × List Output × HExit :=
  let r := play ws sid Player.P1 {ws} Connect4.new
    (startRegister s ws sid joinKey watchKey) msgs
  (startCleanup r.state joinKey watchKey,
   Output.send ws (Event.init joinKey watchKey) :: r.outputs,
   r.exit)

/-- The joiner handler (src/app.py lines 103-116, `join`): on a missing
token, one "Game not found" error to the requester and a clean return;
otherwise subscribe, run the move loop as PLAYER2, and on any exit
unsubscribe. -/
def join (s : ServerState) (ws : Nat) (tok : String) (msgs : List MoveMsg) :
    ServerState × List Output × HExit :=
  match resolveJoin s tok with
  | none => (s, [Output.send ws (Event.error "Game not found")], HExit.clean)
  | some (sid, sess) =>
    let r := play ws sid Player.P2 (insert ws sess.connected) sess.game
      (subscribe s sid ws) msgs
    (unsubscribe r.state sid ws, r.outputs, r.exit)

/-- Replay (src/app.py lines 22-38): one play event per recorded move, in
history order, sent to the given connection only, from a point-in-time copy
of the history. -/
def replay (ws : Nat) (g : Connect4) : List Output :=
  g.moves.map (fun m => Output.send ws (Event.play m.player m.column m.row))

/-- The watcher handler (src/app.py lines 119-135, `watch`): on a missing
token, one "Game not found" error and a clean return; otherwise subscribe,
replay the history to itself only, idle until the connection closes, and on
exit unsubscribe. -/
def watch (s : ServerState) (ws : Nat) (tok : String) :
    ServerState × List Output × HExit :=
  match resolveWatch s tok with
  | none => (s, [Output.send ws (Event.error "Game not found")], HExit.clean)
  | some (sid, sess) =>
    (unsubscribe (subscribe s sid ws) sid ws, replay ws sess.game, HExit.clean)

/-- The first (role-selection) message, a JSON record with optional fields
as read in src/app.py lines 142-150. -/
structure InitMsg where
  type? : Option String
  join? : Option String
  watch? : Option String
deriving DecidableEq, Repr

/-- The branch chosen for a connection, or a protocol violation. -/
inductive Role where
  | creator
  | joiner (token : String)
  | watcher (token : String)
  | violation
deriving DecidableEq, Repr

/-- Role selection (src/app.py lines 144-153): the first message must carry
type "init" (the assertion on line 144; a missing or different type field
raises); then a join field selects the joiner branch, else a watch field the
watcher branch, else the creator branch. -/
def classify (msg : InitMsg) : Role :=
  if msg.type? = some "init" then
    match msg.join? with
    | some t => Role.joiner t
    | none =>
      match msg.watch? with
      | some t => Role.watcher t
      | none => Role.creator
  else Role.violation

/-- The connection handler (src/app.py lines 138-153): read one
role-selection message and dispatch; a violation ends only this connection,
touching neither state nor any other connection. -/
def handler (s : ServerState) (ws sid : Nat) (joinKey watchKey : String)
    (msg : InitMsg) (msgs : List MoveMsg) : ServerState × List Output × HExit :=
  match classify msg with
  | Role.creator => start s ws sid joinKey watchKey msgs
  | Role.joiner t => join s ws t msgs
  | Role.watcher t => watch s ws t
  | Role.violation => (s, [], HExit.violation)

/-! ### Helper lemmas -/

theorem find_modify (l : List (Nat × Session)) (sid sid' : Nat) (f : Session → Session) :
    ((l.map (fun q => if q.1 = sid then (q.1, f q.2) else q)).find?
        (fun q => q.1 == sid')).map (fun q => q.2)
      = if sid' = sid then
          ((l.find? (fun q => q.1 == sid')).map (fun q => q.2)).map f
        else (l.find? (fun q => q.1 == sid')).map (fun q => q.2) := by
  rw [List.find?_map]
  have hp : ((fun q : Nat × Session => q.1 == sid') ∘
        (fun q : Nat × Session => if q.1 = sid then (q.1, f q.2) else q))
      = (fun q : Nat × Session => q.1 == sid') := by
    funext q
    by_cases h : q.1 = sid <;> simp [Function.comp, h]
  rw [hp]
  cases hfind : l.find? (fun q : Nat × Session => q.1 == sid') with
  | none => by_cases hss : sid' = sid <;> simp [hss]
  | some q0 =>
    have hq0 : q0.1 = sid' := by
      have hpred := List.find?_some hfind
      simpa [beq_iff_eq] using hpred
    by_cases hss : sid' = sid
    · have hq0s : q0.1 = sid := hq0.trans hss
      simp [hss, hq0s]
    · have hq0s : ¬ q0.1 = sid := fun hc => hss (hq0.symm.trans hc)
      simp [hss, hq0s]

theorem lookupSession_modifySession (s : ServerState) (sid : Nat) (f : Session → Session)
    (sid' : Nat) :
    lookupSession (modifySession s sid f) sid' =
      if sid' = sid then (lookupSession s sid').map f else lookupSession s sid' := by
  simpa [lookupSession, modifySession] using find_modify s.sessions sid sid' f

theorem lookupSession_updateGame_connected (s : ServerState) (sid : Nat) (g : Connect4)
    (sid' : Nat) :
    (lookupSession (updateGame s sid g) sid').map Session.connected
      = (lookupSession s sid').map Session.connected := by
  unfold updateGame
  rw [lookupSession_modifySession]
  by_cases h : sid' = sid
  · rw [if_pos h]
    cases lookupSession s sid' <;> rfl
  · rw [if_neg h]

theorem lookupTok_removeTok (m : List (String × Nat)) (k : String) :
    lookupTok (removeTok m k) k = none := by
  unfold lookupTok removeTok
  induction m with
  | nil => rfl
  | cons q l ih =>
    by_cases h : q.1 = k
    · simp [List.filter_cons, h]
    · simp [List.filter_cons, h, List.find?_cons, bne_iff_ne, beq_iff_eq]

theorem resolveJoin_eq_some {s : ServerState} {tok : String} {sid : Nat} {sess : Session}
    (h : resolveJoin s tok = some (sid, sess)) :
    lookupTok s.joinMap tok = some sid ∧ lookupSession s sid = some sess := by
  unfold resolveJoin at h
  rw [Option.bind_eq_some] at h
  obtain ⟨sid0, hl, hm⟩ := h
  rw [Option.map_eq_some'] at hm
  obtain ⟨sess0, hs, he⟩ := hm
  simp only [Prod.mk.injEq] at he
  obtain ⟨h1, h2⟩ := he
  subst h1; subst h2
  exact ⟨hl, hs⟩

theorem resolveWatch_eq_some {s : ServerState} {tok : String} {sid : Nat} {sess : Session}
    (h : resolveWatch s tok = some (sid, sess)) :
    lookupTok s.watchMap tok = some sid ∧ lookupSession s sid = some sess := by
  unfold resolveWatch at h
  rw [Option.bind_eq_some] at h
  obtain ⟨sid0, hl, hm⟩ := h
  rw [Option.map_eq_some'] at hm
  obtain ⟨sess0, hs, he⟩ := hm
  simp only [Prod.mk.injEq] at he
  obtain ⟨h1, h2⟩ := he
  subst h1; subst h2
  exact ⟨hl, hs⟩

/-- The move loop never touches the token registries and never changes any
session's fan-out set: it only rewrites games through the session alias. -/
theorem play_state_inv (ws sid : Nat) (p : Player) (conn : Finset Nat) :
    ∀ (msgs : List MoveMsg) (g : Connect4) (s : ServerState),
      (play ws sid p conn g s msgs).state.joinMap = s.joinMap ∧
      (play ws sid p conn g s msgs).state.watchMap = s.watchMap ∧
      ∀ sid', (lookupSession (play ws sid p conn g s msgs).state sid').map Session.connected
                = (lookupSession s sid').map Session.connected := by
  intro msgs
  induction msgs with
  | nil => intro g s; simp [play]
  | cons msg rest ih =>
    intro g s
    cases msg with
    | malformed => simp [play]
    | playReq col =>
      cases hp : Connect4.play g p col with
      | error e => simpa [play, hp] using ih g s
      | ok pr =>
        obtain ⟨row, g2⟩ := pr
        obtain ⟨ih1, ih2, ih3⟩ := ih g2 (updateGame s sid g2)
        refine ⟨?_, ?_, ?_⟩
        · simpa [play, hp, updateGame, modifySession] using ih1
        · simpa [play, hp, updateGame, modifySession] using ih2
        · intro sid'
          have h2 := lookupSession_updateGame_connected s sid g2 sid'
          simp only [play, hp]
          rw [ih3 sid', h2]

/-! ### Claim theorems -/

/-- C2: in the move loop, a move request whose apply_move call fails causes
exactly one error event, carrying the failure message, sent to the
requesting connection only; nothing is broadcast for that message, and the
loop continues on the remaining messages with the game and server state
unchanged. -/
theorem failed_move_sends_error_only (g : Connect4) (s : ServerState) (ws sid : Nat)
    (p : Player) (conn : Finset Nat) (col : Nat) (rest : List MoveMsg) (e : MoveError)
    (h : Connect4.play g p col = Except.error e) :
    play ws sid p conn g s (MoveMsg.playReq col :: rest)
      = { play ws sid p conn g s rest with
          outputs := Output.send ws (Event.error e.message)
            :: (play ws sid p conn g s rest).outputs } := by
  simp [play, h]

/-- A game whose column 0 is full. -/
def gFull : Connect4 :=
  ⟨[⟨Player.P1, 0, 0⟩, ⟨Player.P2, 0, 1⟩, ⟨Player.P1, 0, 2⟩,
    ⟨Player.P2, 0, 3⟩, ⟨Player.P1, 0, 4⟩, ⟨Player.P2, 0, 5⟩], none⟩

/-- C2 witness: playing into the full column 0 yields exactly one error
event to the requester and the loop state is untouched. -/
theorem failed_move_sends_error_only_witness :
    Connect4.play gFull Player.P1 0 = Except.error MoveError.columnFull ∧
    play 0 0 Player.P1 {0} gFull ⟨[], [], []⟩ [MoveMsg.playReq 0]
      = { play 0 0 Player.P1 {0} gFull ⟨[], [], []⟩ [] with
          outputs := Output.send 0 (Event.error MoveError.columnFull.message)
            :: (play 0 0 Player.P1 {0} gFull ⟨[], [], []⟩ []).outputs } :=
  ⟨rfl, failed_move_sends_error_only gFull ⟨[], [], []⟩ 0 0 Player.P1 {0} 0 []
    MoveError.columnFull rfl⟩

/-- C3: a successful move broadcasts a play event (player, column, row) to
the fan-out set as the step's first output; and when the move produces a new
winner (no winner before, one after), the win event naming that winner is
broadcast immediately after the play event, with no other event in
between. -/
theorem successful_move_broadcasts (g g2 : Connect4) (s : ServerState) (ws sid : Nat)
    (p : Player) (conn : Finset Nat) (col row : Nat) (rest : List MoveMsg) (w : Player)
    (h : Connect4.play g p col = Except.ok (row, g2)) :
    (play ws sid p conn g s (MoveMsg.playReq col :: rest)).outputs.head?
        = some (Output.broadcast conn (Event.play p col row)) ∧
    (g.winner = none → g2.winner = some w →
      (play ws sid p conn g s (MoveMsg.playReq col :: rest)).outputs
        = Output.broadcast conn (Event.play p col row)
          :: Output.broadcast conn (Event.win w)
          :: (play ws sid p conn g2 (updateGame s sid g2) rest).outputs) := by
  constructor
  · simp [play, h]
  · intro _ h2
    simp [play, h, h2]

/-- Three P1 marks on row 0; P1 in column 3 completes four-in-a-row. -/
def g3 : Connect4 :=
  ⟨[⟨Player.P1, 0, 0⟩, ⟨Player.P1, 1, 0⟩, ⟨Player.P1, 2, 0⟩], none⟩

/-- The game after that winning move. -/
def g3w : Connect4 :=
  ⟨[⟨Player.P1, 0, 0⟩, ⟨Player.P1, 1, 0⟩, ⟨Player.P1, 2, 0⟩, ⟨Player.P1, 3, 0⟩],
   some Player.P1⟩

/-- C3 witness: the winning move in column 3 broadcasts the play event and
then the win event, adjacent, to the fan-out set. -/
theorem successful_move_broadcasts_witness :
    Connect4.play g3 Player.P1 3 = Except.ok (0, g3w) ∧
    ((play 0 0 Player.P1 {0} g3 ⟨[], [], []⟩ [MoveMsg.playReq 3]).outputs.head?
        = some (Output.broadcast {0} (Event.play Player.P1 3 0)) ∧
     (g3.winner = none → g3w.winner = some Player.P1 →
       (play 0 0 Player.P1 {0} g3 ⟨[], [], []⟩ [MoveMsg.playReq 3]).outputs
         = Output.broadcast {0} (Event.play Player.P1 3 0)
           :: Output.broadcast {0} (Event.win Player.P1)
           :: (play 0 0 Player.P1 {0} g3w (updateGame ⟨[], [], []⟩ 0 g3w) []).outputs)) :=
  ⟨rfl, successful_move_broadcasts g3 g3w ⟨[], [], []⟩ 0 0 Player.P1 {0} 3 0 []
    Player.P1 rfl⟩

/-- C8: once the winner field is set, every further successful move
broadcasts the play event followed by another win event naming the unchanged
winner — the win broadcast is keyed to the winner field being non-empty, not
to the move that first produced it. -/
theorem win_rebroadcast_after_win (g g2 : Connect4) (s : ServerState) (ws sid : Nat)
    (p : Player) (conn : Finset Nat) (col row : Nat) (rest : List MoveMsg) (w : Player)
    (hw : g.winner = some w)
    (h : Connect4.play g p col = Except.ok (row, g2)) :
    g2.winner = some w ∧
    (play ws sid p conn g s (MoveMsg.playReq col :: rest)).outputs
      = Output.broadcast conn (Event.play p col row)
        :: Output.broadcast conn (Event.win w)
        :: (play ws sid p conn g2 (updateGame s sid g2) rest).outputs := by
  have hg2 : g2.winner = some w := by
    unfold Connect4.play at h
    split at h
    · simp only [Except.ok.injEq, Prod.mk.injEq] at h
      obtain ⟨h1, h2⟩ := h
      subst h2
      simp [afterMove, updateWinner, hw]
    · simp at h
  refine ⟨hg2, ?_⟩
  simp [play, h, hg2]

/-- The won game g3w with one more move applied by P2. -/
def g8b : Connect4 :=
  ⟨[⟨Player.P1, 0, 0⟩, ⟨Player.P1, 1, 0⟩, ⟨Player.P1, 2, 0⟩, ⟨Player.P1, 3, 0⟩,
    ⟨Player.P2, 0, 1⟩], some Player.P1⟩

/-- C8 witness: a successful move applied after g3w is won broadcasts the
play event and then a win event still naming P1. -/
theorem win_rebroadcast_after_win_witness :
    g3w.winner = some Player.P1 ∧
    Connect4.play g3w Player.P2 0 = Except.ok (1, g8b) ∧
    (g8b.winner = some Player.P1 ∧
     (play 0 0 Player.P2 {0} g3w ⟨[], [], []⟩ [MoveMsg.playReq 0]).outputs
       = Output.broadcast {0} (Event.play Player.P2 0 1)
         :: Output.broadcast {0} (Event.win Player.P1)
         :: (play 0 0 Player.P2 {0} g8b (updateGame ⟨[], [], []⟩ 0 g8b) []).outputs) :=
  ⟨rfl, rfl, win_rebroadcast_after_win g3w g8b ⟨[], [], []⟩ 0 0 Player.P2 {0} 0 1 []
    Player.P1 rfl rfl⟩

/-- C5: presenting a join or watch token absent from the corresponding
registry yields exactly one "Game not found" error event to that connection,
no init or play events, leaves the server state (hence every fan-out set)
unchanged, and the handler returns cleanly. -/
theorem unknown_token_error (s : ServerState) (ws : Nat) (tok : String)
    (msgs : List MoveMsg) :
    (resolveJoin s tok = none →
      join s ws tok msgs
        = (s, [Output.send ws (Event.error "Game not found")], HExit.clean)) ∧
    (resolveWatch s tok = none →
      watch s ws tok
        = (s, [Output.send ws (Event.error "Game not found")], HExit.clean)) := by
  constructor <;> intro h <;> simp [join, watch, h]

/-- C5 witness: on the empty registry, a joiner and a watcher presenting the
token "bad-token" each get exactly the single error event and a clean
exit. -/
theorem unknown_token_error_witness :
    resolveJoin ⟨[], [], []⟩ "bad-token" = none ∧
    resolveWatch ⟨[], [], []⟩ "bad-token" = none ∧
    join ⟨[], [], []⟩ 0 "bad-token" []
      = (⟨[], [], []⟩, [Output.send 0 (Event.error "Game not found")], HExit.clean) ∧
    watch ⟨[], [], []⟩ 0 "bad-token"
      = (⟨[], [], []⟩, [Output.send 0 (Event.error "Game not found")], HExit.clean) :=
  ⟨rfl, rfl,
   (unknown_token_error ⟨[], [], []⟩ 0 "bad-token" []).1 rfl,
   (unknown_token_error ⟨[], [], []⟩ 0 "bad-token" []).2 rfl⟩

/-- C6: a watcher whose token resolves is subscribed into the fan-out set,
then the full move history is sent to its own connection only — one play
event per recorded move, in history order, never a broadcast — after which
the watcher emits nothing further and exits cleanly when the connection
closes. -/
theorem watcher_replay_history (s : ServerState) (ws : Nat) (tok : String)
    (sid : Nat) (sess : Session)
    (h : resolveWatch s tok = some (sid, sess)) :
    (∃ sess1, lookupSession (subscribe s sid ws) sid = some sess1
        ∧ ws ∈ sess1.connected) ∧
    (watch s ws tok).2.1
      = sess.game.moves.map (fun m => Output.send ws (Event.play m.player m.column m.row)) ∧
    (watch s ws tok).2.2 = HExit.clean := by
  obtain ⟨hl, hs⟩ := resolveWatch_eq_some h
  refine ⟨?_, ?_, ?_⟩
  · refine ⟨⟨sess.game, insert ws sess.connected⟩, ?_, ?_⟩
    · unfold subscribe
      rw [lookupSession_modifySession, if_pos rfl, hs]
      rfl
    · exact Finset.mem_insert_self ws sess.connected
  · simp [watch, h, replay]
  · simp [watch, h]

/-- A registered session: join token "j" and watch token "w" name session 0,
whose fan-out set holds connection 5 and whose game is g3. -/
def sReg : ServerState := ⟨[("j", 0)], [("w", 0)], [(0, ⟨g3, {5}⟩)]⟩

/-- C6 witness: watcher connection 7 presenting "w" is subscribed and
receives exactly g3's three moves as play events, then exits cleanly. -/
theorem watcher_replay_history_witness :
    resolveWatch sReg "w" = some (0, ⟨g3, {5}⟩) ∧
    ((∃ sess1, lookupSession (subscribe sReg 0 7) 0 = some sess1
        ∧ 7 ∈ sess1.connected) ∧
     (watch sReg 7 "w").2.1
       = g3.moves.map (fun m => Output.send 7 (Event.play m.player m.column m.row)) ∧
     (watch sReg 7 "w").2.2 = HExit.clean) :=
  ⟨rfl, watcher_replay_history sReg 7 "w" 0 ⟨g3, {5}⟩ rfl⟩

/-- C7: a joiner or watcher that was subscribed to a session's fan-out set
is no longer in that set once its handler returns, whichever way the handler
body ended (the message list running out models the connection closing; a
malformed message models the protocol violation — the removal happens in
both cases, and in watch's single exit path). -/
theorem fanout_removed_on_exit (s : ServerState) (ws : Nat) (tok : String)
    (msgs : List MoveMsg) (sid : Nat) (sess : Session) :
    (resolveJoin s tok = some (sid, sess) →
      ∃ sess1, lookupSession (join s ws tok msgs).1 sid = some sess1
        ∧ ws ∉ sess1.connected) ∧
    (resolveWatch s tok = some (sid, sess) →
      ∃ sess1, lookupSession (watch s ws tok).1 sid = some sess1
        ∧ ws ∉ sess1.connected) := by
  constructor
  · intro h
    obtain ⟨hl, hs⟩ := resolveJoin_eq_some h
    have hsub : lookupSession (subscribe s sid ws) sid
        = some ⟨sess.game, insert ws sess.connected⟩ := by
      unfold subscribe
      rw [lookupSession_modifySession, if_pos rfl, hs]
      rfl
    obtain ⟨-, -, hinv⟩ := play_state_inv ws sid Player.P2 (insert ws sess.connected)
      msgs sess.game (subscribe s sid ws)
    have hmap := hinv sid
    rw [hsub] at hmap
    obtain ⟨sess2, hsess2, hc2⟩ := Option.map_eq_some'.mp hmap
    refine ⟨⟨sess2.game, sess2.connected.erase ws⟩, ?_, ?_⟩
    · simp only [join, h]
      unfold unsubscribe
      rw [lookupSession_modifySession, if_pos rfl, hsess2]
      rfl
    · exact Finset.not_mem_erase ws sess2.connected
  · intro h
    obtain ⟨hl, hs⟩ := resolveWatch_eq_some h
    refine ⟨⟨sess.game, (insert ws sess.connected).erase ws⟩, ?_, ?_⟩
    · simp only [watch, h]
      unfold unsubscribe subscribe
      rw [lookupSession_modifySession, if_pos rfl, lookupSession_modifySession,
        if_pos rfl, hs]
      rfl
    · exact Finset.not_mem_erase ws _

/-- C7 witness: joiner connection 7 presenting "j" is absent from session
0's fan-out set after its handler returns. -/
theorem fanout_removed_on_exit_witness :
    resolveJoin sReg "j" = some (0, ⟨g3, {5}⟩) ∧
    (∃ sess1, lookupSession (join sReg 7 "j" []).1 0 = some sess1
      ∧ 7 ∉ sess1.connected) :=
  ⟨rfl, (fanout_removed_on_exit sReg 7 "j" [] 0 ⟨g3, {5}⟩).1 rfl⟩

/-- C1: while the creator's handler runs, the join and watch tokens both
resolve to the same (game, connection-set) pair of the created session — the
state reached after any prefix of the creator's move-loop messages is
covered by quantifying over the message list — and after the handler exits
(on any path, the cleanup being unconditional) both tokens fail to resolve,
regardless of who is still connected. -/
theorem creator_session_lifecycle (s : ServerState) (ws sid : Nat)
    (joinKey watchKey : String) (msgs : List MoveMsg) :
    (∀ t : List MoveMsg,
      ∃ sess,
        resolveJoin (play ws sid Player.P1 {ws} Connect4.new
            (startRegister s ws sid joinKey watchKey) t).state joinKey
          = some (sid, sess) ∧
        resolveWatch (play ws sid Player.P1 {ws} Connect4.new
            (startRegister s ws sid joinKey watchKey) t).state watchKey
          = some (sid, sess)) ∧
    resolveJoin (start s ws sid joinKey watchKey msgs).1 joinKey = none ∧
    resolveWatch (start s ws sid joinKey watchKey msgs).1 watchKey = none := by
  refine ⟨?_, ?_, ?_⟩
  · intro t
    obtain ⟨h1, h2, h3⟩ := play_state_inv ws sid Player.P1 {ws} t Connect4.new
      (startRegister s ws sid joinKey watchKey)
    have hreg : lookupSession (startRegister s ws sid joinKey watchKey) sid
        = some ⟨Connect4.new, {ws}⟩ := by
      simp [lookupSession, startRegister]
    have hmap := h3 sid
    rw [hreg] at hmap
    obtain ⟨sess, hsess, hc⟩ := Option.map_eq_some'.mp hmap
    have htokj : lookupTok (startRegister s ws sid joinKey watchKey).joinMap joinKey
        = some sid := by
      simp [lookupTok, startRegister]
    have htokw : lookupTok (startRegister s ws sid joinKey watchKey).watchMap watchKey
        = some sid := by
      simp [lookupTok, startRegister]
    exact ⟨sess, by simp [resolveJoin, h1, htokj, hsess],
      by simp [resolveWatch, h2, htokw, hsess]⟩
  · simp [start, startCleanup, resolveJoin, lookupTok_removeTok]
  · simp [start, startCleanup, resolveWatch, lookupTok_removeTok]

/-- C9: the creator is in its session's fan-out set from the moment the
session is registered — which precedes the init send, the init event being
the handler's first output — it is still there after any prefix of the move
loop, and the cleanup path touches only the two token registry entries, so
the creator remains in the set even after its handler exits. -/
theorem creator_fanout_membership (s : ServerState) (ws sid : Nat)
    (joinKey watchKey : String) (msgs : List MoveMsg) :
    lookupSession (startRegister s ws sid joinKey watchKey) sid
        = some ⟨Connect4.new, {ws}⟩ ∧
    ws ∈ ({ws} : Finset Nat) ∧
    (start s ws sid joinKey watchKey msgs).2.1.head?
        = some (Output.send ws (Event.init joinKey watchKey)) ∧
    (∀ t : List MoveMsg,
      ∃ sess, lookupSession (play ws sid Player.P1 {ws} Connect4.new
          (startRegister s ws sid joinKey watchKey) t).state sid = some sess
        ∧ ws ∈ sess.connected) ∧
    (∃ sess, lookupSession (start s ws sid joinKey watchKey msgs).1 sid = some sess
        ∧ ws ∈ sess.connected) ∧
    (start s ws sid joinKey watchKey msgs).1.sessions
      = (play ws sid Player.P1 {ws} Connect4.new
          (startRegister s ws sid joinKey watchKey) msgs).state.sessions := by
  have hreg : lookupSession (startRegister s ws sid joinKey watchKey) sid
      = some ⟨Connect4.new, {ws}⟩ := by
    simp [lookupSession, startRegister]
  have hmem : ∀ t : List MoveMsg,
      ∃ sess, lookupSession (play ws sid Player.P1 {ws} Connect4.new
          (startRegister s ws sid joinKey watchKey) t).state sid = some sess
        ∧ ws ∈ sess.connected := by
    intro t
    obtain ⟨-, -, h3⟩ := play_state_inv ws sid Player.P1 {ws} t Connect4.new
      (startRegister s ws sid joinKey watchKey)
    have hmap := h3 sid
    rw [hreg] at hmap
    obtain ⟨sess, hsess, hc⟩ := Option.map_eq_some'.mp hmap
    exact ⟨sess, hsess, by rw [hc]; exact Finset.mem_singleton_self ws⟩
  refine ⟨hreg, Finset.mem_singleton_self ws, by simp [start], hmem, ?_, rfl⟩
  exact hmem msgs

/-- C4 counterexample: the empty first message (no type, join, or watch
field) does not select the Creator branch — the type assertion in the
handler makes it a protocol violation. -/
theorem empty_message_is_violation :
    classify ⟨none, none, none⟩ = Role.violation ∧
    classify ⟨none, none, none⟩ ≠ Role.creator := by
  constructor <;> decide

/-- C4 (amended): the first message selects a branch only when it carries a
type field equal to "init"; given that, absence of both join and watch
selects Creator, a join field selects Joiner, and a watch field without join
selects Watcher; a message whose type field is missing or different —
including the empty message — is a protocol violation, fatal to this
connection only: the handler changes no state and emits nothing. -/
theorem role_selection (msg : InitMsg) (s : ServerState) (ws sid : Nat)
    (joinKey watchKey : String) (msgs : List MoveMsg) :
    (classify msg = Role.creator ↔
      msg.type? = some "init" ∧ msg.join? = none ∧ msg.watch? = none) ∧
    (∀ t, classify msg = Role.joiner t ↔
      msg.type? = some "init" ∧ msg.join? = some t) ∧
    (∀ t, classify msg = Role.watcher t ↔
      msg.type? = some "init" ∧ msg.join? = none ∧ msg.watch? = some t) ∧
    (classify msg = Role.violation ↔ ¬ msg.type? = some "init") ∧
    (classify msg = Role.violation →
      handler s ws sid joinKey watchKey msg msgs = (s, [], HExit.violation)) := by
  obtain ⟨ot, oj, ow⟩ := msg
  cases ot with
  | none => cases oj <;> cases ow <;> simp [classify, handler]
  | some str =>
    by_cases hs : str = "init"
    · subst hs
      cases oj with
      | none => cases ow <;> simp [classify, handler]
      | some t0 => cases ow <;> simp [classify, handler, eq_comm]
    · cases oj <;> cases ow <;> simp [classify, handler, hs]

/-- C10: a role-selection message carrying both a join and a watch reference
is handled as a Joiner on the join token; the watch reference is ignored
because the join field is tested first. -/
theorem join_field_takes_precedence (msg : InitMsg) (jt wt : String)
    (h1 : msg.type? = some "init") (h2 : msg.join? = some jt)
    (_h3 : msg.watch? = some wt) :
    classify msg = Role.joiner jt ∧
    ∀ (s : ServerState) (ws sid : Nat) (joinKey watchKey : String)
      (msgs : List MoveMsg),
      handler s ws sid joinKey watchKey msg msgs = join s ws jt msgs := by
  have hc : classify msg = Role.joiner jt := by
    unfold classify
    rw [h1, h2]
    simp
  refine ⟨hc, ?_⟩
  intro s ws sid joinKey watchKey msgs
  simp [handler, hc]

/-- C10 witness: a message with type "init" carrying join "a" and watch "b"
is classified as Joiner on "a" and dispatched to the join handler. -/
theorem join_field_takes_precedence_witness :
    (⟨some "init", some "a", some "b"⟩ : InitMsg).type? = some "init" ∧
    (⟨some "init", some "a", some "b"⟩ : InitMsg).join? = some "a" ∧
    (⟨some "init", some "a", some "b"⟩ : InitMsg).watch? = some "b" ∧
    (classify ⟨some "init", some "a", some "b"⟩ = Role.joiner "a" ∧
     ∀ (s : ServerState) (ws sid : Nat) (joinKey watchKey : String)
       (msgs : List MoveMsg),
       handler s ws sid joinKey watchKey ⟨some "init", some "a", some "b"⟩ msgs
         = join s ws "a" msgs) :=
  ⟨rfl, rfl, rfl,
   join_field_takes_precedence ⟨some "init", some "a", some "b"⟩ "a" "b" rfl rfl rfl⟩

end WsApp
